import Mathlib

/-!
# Verification of the octopod-challenge lobby (src/internal/lobby.go)

A shallow embedding of the session coordinator ("Lobby"): the
authentication/registration handshake (`identifyOctapod`,
`getAuthenticationMessage`, `HandleJoin`), the scheduler phases (`Update`,
`TimeoutUpdate`, `StartTimer`) and grid rendering (`DisplayMaze`).

Modelling conventions:
* A websocket connection is identified by a `Nat`; its observable I/O
  (writing an error message, closing) is recorded as a trace of `ConnEvent`s.
* The probe's single-slot delivery channel (`o.Sensor <- s`) is recorded as a
  trace of deliveries appended to the probe (`some` for a sensor reading,
  `none` for the nil timeout marker), mirroring the sequence of sends.
* Go's `map[string]*Octapod` registry is an association list keyed by id;
  in-place mutation through the shared pointer becomes updating the entry.
* Go's `map[Point]*Octapod` built by `DisplayMaze` is modelled by consing
  each insertion; lookup takes the most recent entry, matching the
  overwrite semantics, and the map is empty iff nothing was inserted.
  Since Go map iteration order is unspecified, `displayMaze` takes the
  iteration order of the registry as an explicit list argument.
* `Octapod`, `Maze`, `AuthMessage` and `ErrorMessage` live in repository
  files not under src/ (octapod.go, maze.go, message shapes); they are
  modelled from the spec where marked.
-/

/-- Wire point, `type Point struct { X, Y int }` (lobby.go). Go `int` is
modelled as `Int`; the `int(o.Position.X())` casts in `DisplayMaze` are the
identity here because positions are already integral in the model. -/
structure Point where
  x : Int
  y : Int
deriving DecidableEq, Repr

/-- Modelled from the spec: the Grid (maze.go, not under src/) "produces a
sensor reading for a given coordinate". The reading is opaque to the core,
so it is modelled as a value tagged by the coordinate it was read at. -/
structure SensorValue where
  pos : Point
deriving DecidableEq, Repr

/-- Modelled from the spec: the Grid (maze.go, not under src/) "owns a 2D
walkable/blocked cell map" of size `width × height`; `cells` is indexed
`cells[x][y]` with `true` = wall, as read by `DisplayMaze`. `start` is the
initial coordinate `NewOctapod` places a fresh probe at (the spec leaves the
start cell to the maze). -/
structure Maze where
  width : Nat
  height : Nat
  cells : List (List Bool)
  start : Point
deriving Repr

/-- `l.Maze.cells[x][y]` (wall test). A well-formed maze has `width` columns
of `height` cells each; out-of-range reads default to open. -/
def Maze.cellAt (m : Maze) (x y : Nat) : Bool :=
  ((m.cells.getD x []).getD y false)

/-- Modelled from the spec: `GetSensor` (maze.go, not under src/) produces
the sensor reading for a coordinate. -/
def Maze.GetSensor (_m : Maze) (p : Point) : SensorValue :=
  { pos := p }

/-- One remote agent (`type Octapod struct`, octapod.go, not under src/),
modelled from the spec's data model: `id` (lowercase, immutable), `secret`
(credential fixed at first registration), `connection` (at most one live
stream, `none` when disconnected), `position`, `inactiveCount`, and the
delivery channel, recorded as the trace of deliveries
(`some reading` / `none` timeout marker). -/
structure Octapod where
  Id : String
  secret : String
  Conn : Option Nat
  Position : Point
  InactiveCount : Int
  Sensor : List (Option SensorValue)
deriving DecidableEq, Repr

/-- Modelled from the spec: `NewOctapod` (octapod.go, not under src/)
creates a probe with `secret = password`, the given stream attached, and
`inactiveCount` 0 ("reset to 0 exactly on (re)connection"); the maze
supplies the start position. -/
def NewOctapod (id password : String) (conn : Nat) (m : Maze) : Octapod :=
  { Id := id
    secret := password
    Conn := some conn
    Position := m.start
    InactiveCount := 0
    Sensor := [] }

/-- Modelled from the spec: `VerifyPassword` (octapod.go, not under src/)
checks the supplied password against the credential established at first
registration. -/
def Octapod.VerifyPassword (o : Octapod) (password : String) : Bool :=
  o.secret == password

/-- Modelled from the spec: `Disconnect` (octapod.go, not under src/)
"closes its connection and clears its `connection` field". -/
def Octapod.Disconnect (o : Octapod) : Octapod :=
  { o with Conn := none }

/-- `var MaxInactive = 2` (lobby.go). -/
def MaxInactive : Int := 2

/-- Observable actions on a websocket connection. -/
inductive ConnEvent where
  | sentError (conn : Nat) (msg : String)
  | closed (conn : Nat)
deriving DecidableEq, Repr

/-- Go's `strings.ToLower`, modelled character-wise (faithful on the ASCII
identifiers the protocol uses). -/
def strToLower (s : String) : String :=
  ⟨s.data.map Char.toLower⟩

/-- `sendErrorAndClose` (lobby.go): marshal `{error: msg}`, write it, then
close the connection (success path of the writes). -/
def sendErrorAndClose (conn : Nat) (msg : String) : List ConnEvent :=
  [ConnEvent.sentError conn msg, ConnEvent.closed conn]

/-- The session coordinator `type Lobby struct` (lobby.go): the registry
`Octapods` (keyed by lowercase id), the `timerRunning` guard and the maze.
`messages` records the texts handed to `DiscordBot.SendMessage`. -/
structure Lobby where
  Octapods : List (String × Octapod)
  timerRunning : Bool
  maze : Maze
  messages : List String

/-- Registry lookup (`oct, exists := l.Octapods[id]`). -/
def Lobby.find (l : Lobby) (id : String) : Option Octapod :=
  List.lookup id l.Octapods

/-- Replace the entry for `id` (mutation of the shared `*Octapod`). -/
def updateEntry (reg : List (String × Octapod)) (id : String) (o : Octapod) :
    List (String × Octapod) :=
  reg.map (fun p => if p.1 = id then (id, o) else p)

/-- `identifyOctapod` (lobby.go, lines 175–207): registry lookup; if absent,
create and insert a new probe and announce it (this path never errors); if
present, verify the password, then the absence of a live connection, and
only then attach the new stream.  On the two rejection paths the source
calls `sendErrorAndClose` and then `conn.Close()` a second time. Returns the
new lobby state and the connection-event trace. -/
def Lobby.identifyOctapod (l : Lobby) (id password : String) (conn : Nat) :
    Lobby × List ConnEvent :=
  match List.lookup id l.Octapods with
  | none =>
      let oct := NewOctapod id password conn l.maze
      ({ l with
          Octapods := l.Octapods ++ [(id, oct)]
          messages := l.messages ++ ["New octapod [" ++ id ++ "] registered"] },
        [])
  | some oct =>
      if ¬ oct.VerifyPassword password then
        (l, sendErrorAndClose conn "Invalid password for octapod" ++ [ConnEvent.closed conn])
      else if oct.Conn.isSome then
        (l, sendErrorAndClose conn "Octapod already connected" ++ [ConnEvent.closed conn])
      else
        ({ l with
            Octapods := updateEntry l.Octapods id { oct with Conn := some conn }
            messages := l.messages ++ ["Octapod [" ++ id ++ "] reconnected"] },
          [])

/-- Websocket message types seen by the handshake. -/
inductive MsgType where
  | text
  | other
deriving DecidableEq, Repr

/-- `{id, password}` authentication request (message shape, not under src/),
modelled from the spec's wire messages. -/
structure AuthMessage where
  ID : String
  Password : String
deriving DecidableEq, Repr

/-- The first read on a new connection, as the handshake observes it:
a transport failure, or a message with a type and a payload.  The payload is
`some a` when `json.Unmarshal` into `AuthMessage` succeeds and `none` when
it fails (the JSON codec is external library code). -/
inductive ReadOutcome where
  | failure (errText : String)
  | message (type : MsgType) (payload : Option AuthMessage)
deriving DecidableEq, Repr

/-- `getAuthenticationMessage` (lobby.go, lines 157–173): one blocking read;
on read failure, non-text type, or unparsable payload, send an error and
close, yielding no auth message. -/
def getAuthenticationMessage (conn : Nat) (r : ReadOutcome) :
    Option AuthMessage × List ConnEvent :=
  match r with
  | .failure e =>
      (none, sendErrorAndClose conn ("Error reading authentication message: " ++ e))
  | .message t payload =>
      if t ≠ MsgType.text then
        (none, sendErrorAndClose conn "Authentication requires a text message with credentials.")
      else
        match payload with
        | none => (none, sendErrorAndClose conn "Invalid authentication message format.")
        | some a => (some a, [])

/-- `HandleJoin` (lobby.go, lines 134–155) after the upgrade: read the
authentication message; on failure return with the lobby untouched,
otherwise identify the octapod under the lowercased id. -/
def Lobby.HandleJoin (l : Lobby) (conn : Nat) (r : ReadOutcome) :
    Lobby × List ConnEvent :=
  match getAuthenticationMessage conn r with
  | (none, evts) => (l, evts)
  | (some a, evts) =>
      let res := l.identifyOctapod (strToLower a.ID) a.Password conn
      (res.1, evts ++ res.2)

/-- The per-probe body of `Update` (lobby.go, lines 217–229): skip a probe
with no connection; otherwise increment `InactiveCount`, read the sensor at
the current position, and deliver the reading. -/
def updateOne (m : Maze) (o : Octapod) : Octapod :=
  match o.Conn with
  | none => o
  | some _ =>
      { o with
          InactiveCount := o.InactiveCount + 1
          Sensor := o.Sensor ++ [some (m.GetSensor o.Position)] }

/-- `Update` (lobby.go, lines 209–230): snapshot the registry, then apply
the per-probe update to every snapshotted probe. -/
def Lobby.Update (l : Lobby) : Lobby :=
  { l with Octapods := l.Octapods.map (fun p => (p.1, updateOne l.maze p.2)) }

/-- The per-probe body of `TimeoutUpdate` (lobby.go, lines 240–259): skip a
probe with no connection; otherwise deliver the nil timeout marker, then
disconnect the probe if `InactiveCount >= MaxInactive`.  Returns the updated
probe and the connection events (the close performed by `Disconnect`). -/
def timeoutOne (o : Octapod) : Octapod × List ConnEvent :=
  match o.Conn with
  | none => (o, [])
  | some c =>
      let o' := { o with Sensor := o.Sensor ++ [none] }
      if MaxInactive ≤ o'.InactiveCount then
        (o'.Disconnect, [ConnEvent.closed c])
      else
        (o', [])

/-- `TimeoutUpdate` (lobby.go, lines 232–260): snapshot the registry, then
apply the per-probe timeout step to every snapshotted probe, accumulating
the close events in snapshot order. -/
def Lobby.TimeoutUpdate (l : Lobby) : Lobby × List ConnEvent :=
  ({ l with Octapods := l.Octapods.map (fun p => (p.1, (timeoutOne p.2).1)) },
    l.Octapods.foldr (fun p acc => (timeoutOne p.2).2 ++ acc) [])

/-- `StartTimer` (lobby.go, lines 53–84): under the lobby lock, if the timer
is already running only log and return; otherwise mark it running and spawn
the alternating update/timeout cycle.  The boolean records whether a new
cycle goroutine was spawned by this call. -/
def Lobby.StartTimer (l : Lobby) : Lobby × Bool :=
  if l.timerRunning then
    (l, false)
  else
    ({ l with timerRunning := true }, true)

/-- The filter `DisplayMaze` applies while building `octapodPositions`
(lobby.go, lines 92–104): an empty filter admits every probe, otherwise the
probe's id must equal the lowercased filter. -/
def includePod (id : String) (o : Octapod) : Bool :=
  if id = "" then true else decide (o.Id = strToLower id)

/-- The `Point{int(X), int(Y)}` key a probe is filed under. -/
def podPoint (o : Octapod) : Point :=
  { x := o.Position.x, y := o.Position.y }

/-- The `octapodPositions` map of `DisplayMaze`, built by iterating the
registry in the order given by `pods` and inserting each admitted probe at
its point; a later insertion at the same point overwrites, so lookup takes
the most recent entry. -/
def octapodPositions (pods : List Octapod) (id : String) :
    List (Point × Octapod) :=
  pods.foldl (fun m o => if includePod id o then (podPoint o, o) :: m else m) []

/-- Lookup in the `octapodPositions` map (most recent insertion wins). -/
def lookupPos (p : Point) : List (Point × Octapod) → Option Octapod
  | [] => none
  | q :: rest => if q.1 = p then some q.2 else lookupPos p rest

/-- One cell of the rendering (lobby.go, lines 117–123): wall, probe head
character, or blank.  `octapod.Id[0:1]` panics on an empty id; the panic is
modelled as `none`. -/
def renderCell (m : Maze) (find : Point → Option Octapod) (x y : Nat) :
    Option String :=
  if m.cellAt x y then some "# "
  else
    match find { x := (x : Int), y := (y : Int) } with
    | some o => if o.Id.length = 0 then none else some (o.Id.take 1 ++ " ")
    | none => some "  "

/-- One row of the rendering plus its trailing `"# \n"`. -/
def renderRow (m : Maze) (find : Point → Option Octapod) (y : Nat) :
    Option String :=
  ((List.range m.width).foldl
      (fun acc x => acc.bind (fun s => (renderCell m find x y).map (fun c => s ++ c)))
      (some "")).map (fun s => s ++ "# \n")

/-- The bottom border row (lobby.go, lines 127–130). -/
def bottomRow (m : Maze) : String :=
  String.join ((List.range m.width).map (fun _ => "# ")) ++ "# \n"

/-- All rows of the rendering followed by the bottom border. -/
def renderAll (m : Maze) (find : Point → Option Octapod) : Option String :=
  ((List.range m.height).foldl
      (fun acc y => acc.bind (fun s => (renderRow m find y).map (fun r => s ++ r)))
      (some "")).map (fun s => s ++ bottomRow m)

/-- `DisplayMaze` (lobby.go, lines 86–132) over a given iteration order
`pods` of the registry (Go map iteration order is unspecified): build the
position map under the filter; if it is empty return the "no octapods"
message, otherwise render the grid inside a code fence.  `none` models the
panic of `Id[0:1]` on an empty id. -/
def displayMaze (m : Maze) (pods : List Octapod) (id : String) :
    Option String :=
  let posMap := octapodPositions pods id
  if posMap.length = 0 then
    if id = "" then some "No octapods in the lobby."
    else some ("No octapods [" ++ id ++ "] in the lobby.")
  else
    (renderAll m (fun p => lookupPos p posMap)).map
      (fun r => "```\n" ++ r ++ "```")

/-- `DisplayMaze` on the lobby, iterating the registry in its list order. -/
def Lobby.DisplayMaze (l : Lobby) (id : String) : Option String :=
  displayMaze l.maze (l.Octapods.map Prod.snd) id

/-! ## Registry lookup lemmas -/

theorem lookup_append_self {reg : List (String × Octapod)} {id : String}
    (h : List.lookup id reg = none) (o : Octapod) :
    List.lookup id (reg ++ [(id, o)]) = some o := by
  induction reg with
  | nil => simp [List.lookup]
  | cons p rest ih =>
      rw [List.cons_append]
      rw [List.lookup] at h ⊢
      cases hbeq : (id == p.1) with
      | true => simp [hbeq] at h
      | false => simp only [hbeq]; exact ih (by simpa [hbeq] using h)

theorem lookup_map_value (f : Octapod → Octapod) (reg : List (String × Octapod))
    (id : String) :
    List.lookup id (reg.map (fun p => (p.1, f p.2))) = (List.lookup id reg).map f := by
  induction reg with
  | nil => simp [List.lookup]
  | cons p rest ih =>
      rw [List.map_cons, List.lookup, List.lookup]
      cases hbeq : (id == p.1) with
      | true => rfl
      | false => exact ih

theorem lookup_map_timeout (reg : List (String × Octapod)) (id : String) :
    List.lookup id (reg.map (fun p => (p.1, (timeoutOne p.2).1))) =
      (List.lookup id reg).map (fun o => (timeoutOne o).1) := by
  induction reg with
  | nil => simp [List.lookup]
  | cons p rest ih =>
      rw [List.map_cons, List.lookup, List.lookup]
      cases hbeq : (id == p.1) with
      | true => rfl
      | false => exact ih

theorem lookup_updateEntry {reg : List (String × Octapod)} {id : String}
    {oct : Octapod} (h : List.lookup id reg = some oct) (o : Octapod) :
    List.lookup id (updateEntry reg id o) = some o := by
  induction reg with
  | nil => simp [List.lookup] at h
  | cons p rest ih =>
      rw [List.lookup] at h
      rw [updateEntry, List.map_cons]
      by_cases hk : p.1 = id
      · rw [if_pos hk]
        rw [List.lookup, beq_self_eq_true]
      · rw [if_neg hk]
        have hbeq : (id == p.1) = false := beq_eq_false_iff_ne.mpr fun hx => hk hx.symm
        rw [List.lookup, hbeq]
        rw [hbeq] at h
        exact ih h

/-! ## Concrete fixtures -/

/-- A 1×1 maze whose single cell is open, start at the origin. -/
def mazeOne : Maze := { width := 1, height := 1, cells := [[false]], start := { x := 0, y := 0 } }

/-- A lobby with an empty registry. -/
def lobbyEmpty : Lobby :=
  { Octapods := [], timerRunning := false, maze := mazeOne, messages := [] }

/-- A probe `"a"` with secret `"x"`, connected on stream 0, at the origin. -/
def podA : Octapod :=
  { Id := "a", secret := "x", Conn := some 0, Position := { x := 0, y := 0 },
    InactiveCount := 0, Sensor := [] }

/-- A lobby whose registry holds the connected probe `"a"`. -/
def lobbyA : Lobby := { lobbyEmpty with Octapods := [("a", podA)] }

/-! ## C1 -/

/-- C1: the first handshake for an id not yet in the registry never rejects
(empty event trace) and creates a probe whose secret is the supplied
password; a later handshake for the same id with a different password is
rejected with an error response and leaves the lobby — in particular the
stored secret — unchanged. -/
theorem c1_first_handshake_fixes_credential (l : Lobby) (id password : String)
    (conn : Nat) :
    (List.lookup id l.Octapods = none →
      (l.identifyOctapod id password conn).2 = [] ∧
      List.lookup id (l.identifyOctapod id password conn).1.Octapods =
        some (NewOctapod id password conn l.maze) ∧
      (NewOctapod id password conn l.maze).secret = password) ∧
    (∀ oct, List.lookup id l.Octapods = some oct → password ≠ oct.secret →
      (l.identifyOctapod id password conn).2 =
        [ConnEvent.sentError conn "Invalid password for octapod",
         ConnEvent.closed conn, ConnEvent.closed conn] ∧
      (l.identifyOctapod id password conn).1 = l ∧
      (List.lookup id (l.identifyOctapod id password conn).1.Octapods).map
          Octapod.secret = some oct.secret) := by
  constructor
  · intro h
    refine ⟨?_, ?_, rfl⟩
    · simp [Lobby.identifyOctapod, h]
    · simp only [Lobby.identifyOctapod, h]
      exact lookup_append_self h _
  · intro oct h hne
    have hv : oct.VerifyPassword password = false := by
      simp only [Octapod.VerifyPassword]
      exact beq_eq_false_iff_ne.mpr fun hx => hne hx.symm
    refine ⟨?_, ?_, ?_⟩
    · simp [Lobby.identifyOctapod, h, hv, sendErrorAndClose]
    · simp [Lobby.identifyOctapod, h, hv]
    · simp [Lobby.identifyOctapod, h, hv]

/-- Witness for C1 at concrete inputs. -/
theorem c1_witness :
    ((lobbyEmpty.identifyOctapod "a" "x" 0).2 = [] ∧
      List.lookup "a" (lobbyEmpty.identifyOctapod "a" "x" 0).1.Octapods =
        some (NewOctapod "a" "x" 0 lobbyEmpty.maze)) ∧
    ((lobbyA.identifyOctapod "a" "y" 1).1 = lobbyA ∧
      (List.lookup "a" (lobbyA.identifyOctapod "a" "y" 1).1.Octapods).map
          Octapod.secret = some "x") := by
  have h1 := (c1_first_handshake_fixes_credential lobbyEmpty "a" "x" 0).1 (by decide)
  have h2 := (c1_first_handshake_fixes_credential lobbyA "a" "y" 1).2 podA
    (by decide) (by decide)
  exact ⟨⟨h1.1, h1.2.1⟩, ⟨h2.2.1, h2.2.2⟩⟩

/-! ## C2 -/

/-- C2 counterexample: probe `"a"` already has a live connection (stream 0),
yet the further handshake with the wrong password `"y"` is rejected with the
invalid-password error, not with the "already connected" error the claim
names for any further handshake. -/
theorem c2_counterexample :
    podA.Conn = some 0 ∧
    (lobbyA.identifyOctapod "a" "y" 1).2 =
      [ConnEvent.sentError 1 "Invalid password for octapod",
       ConnEvent.closed 1, ConnEvent.closed 1] ∧
    ConnEvent.sentError 1 "Octapod already connected" ∉
      (lobbyA.identifyOctapod "a" "y" 1).2 := by
  decide

/-- C2 (amended): while a probe has a live connection, every further
handshake is rejected — the lobby (hence the existing connection) is
unchanged, the new connection is closed, and an error is sent; when the
password is correct the error is "Octapod already connected". -/
theorem c2_reject_when_connected (l : Lobby) (id password : String)
    (conn c0 : Nat) (oct : Octapod)
    (hfind : List.lookup id l.Octapods = some oct)
    (hconn : oct.Conn = some c0) :
    (l.identifyOctapod id password conn).1 = l ∧
    ConnEvent.closed conn ∈ (l.identifyOctapod id password conn).2 ∧
    (∃ msg, ConnEvent.sentError conn msg ∈ (l.identifyOctapod id password conn).2) ∧
    (oct.VerifyPassword password = true →
      (l.identifyOctapod id password conn).2 =
        [ConnEvent.sentError conn "Octapod already connected",
         ConnEvent.closed conn, ConnEvent.closed conn]) := by
  have hsome : oct.Conn.isSome = true := by rw [hconn]; rfl
  by_cases hv : oct.VerifyPassword password = true
  · refine ⟨?_, ?_, ⟨"Octapod already connected", ?_⟩, fun _ => ?_⟩ <;>
      simp [Lobby.identifyOctapod, hfind, hv, hsome, sendErrorAndClose]
  · have hv' : oct.VerifyPassword password = false := by
      cases h : oct.VerifyPassword password
      · rfl
      · exact absurd h hv
    refine ⟨?_, ?_, ⟨"Invalid password for octapod", ?_⟩, fun hx => absurd hx hv⟩ <;>
      simp [Lobby.identifyOctapod, hfind, hv', sendErrorAndClose]

/-- Witness for C2 (amended) at concrete inputs. -/
theorem c2_witness :
    (lobbyA.identifyOctapod "a" "x" 1).1 = lobbyA ∧
    (lobbyA.identifyOctapod "a" "x" 1).2 =
      [ConnEvent.sentError 1 "Octapod already connected",
       ConnEvent.closed 1, ConnEvent.closed 1] := by
  have h := c2_reject_when_connected lobbyA "a" "x" 1 0 podA (by decide) (by decide)
  exact ⟨h.1, h.2.2.2 (by decide)⟩

/-! ## C7 -/

/-- C7: starting the scheduler is idempotent — when the timer is already
running, `StartTimer` leaves the lobby unchanged and spawns no second
update/timeout cycle. -/
theorem c7_start_timer_idempotent (l : Lobby) (h : l.timerRunning = true) :
    l.StartTimer = (l, false) := by
  simp [Lobby.StartTimer, h]

/-- Witness for C7 at a concrete input. -/
theorem c7_witness :
    Lobby.StartTimer { lobbyEmpty with timerRunning := true } =
      ({ lobbyEmpty with timerRunning := true }, false) :=
  c7_start_timer_idempotent { lobbyEmpty with timerRunning := true } rfl

/-! ## C4 -/

/-- C4: if the first read fails, or the first message is not text-typed, or
it does not parse as the authentication shape, the handshake sends an error
response, closes the connection, and aborts with the lobby (registry and
every probe) unchanged. -/
theorem c4_bad_first_message_aborts (l : Lobby) (conn : Nat) (r : ReadOutcome)
    (h : (∃ e, r = ReadOutcome.failure e) ∨
         (∃ p, r = ReadOutcome.message MsgType.other p) ∨
         r = ReadOutcome.message MsgType.text none) :
    (l.HandleJoin conn r).1 = l ∧
    ∃ msg, (l.HandleJoin conn r).2 =
      [ConnEvent.sentError conn msg, ConnEvent.closed conn] := by
  rcases h with ⟨e, rfl⟩ | ⟨p, rfl⟩ | rfl
  · exact ⟨rfl, _, rfl⟩
  · exact ⟨rfl, _, rfl⟩
  · exact ⟨rfl, _, rfl⟩

/-- Witness for C4 at a concrete input (failed first read). -/
theorem c4_witness :
    (lobbyEmpty.HandleJoin 5 (ReadOutcome.failure "eof")).1 = lobbyEmpty ∧
    ∃ msg, (lobbyEmpty.HandleJoin 5 (ReadOutcome.failure "eof")).2 =
      [ConnEvent.sentError 5 msg, ConnEvent.closed 5] :=
  c4_bad_first_message_aborts lobbyEmpty 5 (ReadOutcome.failure "eof")
    (Or.inl ⟨"eof", rfl⟩)

/-! ## C3 -/

/-- The lobby after registering probe `"a"` (password `"x"`, stream 0). -/
def lobbyReg : Lobby := (lobbyEmpty.identifyOctapod "a" "x" 0).1

/-- `lobbyReg` after two update phases (inactiveCount reaches `MaxInactive`). -/
def lobbyUpd2 : Lobby := lobbyReg.Update.Update

/-- `lobbyUpd2` after the timeout phase (probe `"a"` is evicted). -/
def lobbyEvicted : Lobby := lobbyUpd2.TimeoutUpdate.1

/-- C3 counterexample: after eviction, the handshake with the correct
password `"x"` reconnects probe `"a"` (no error events, the stream is
attached), yet its `inactiveCount` is still 2, not 0 — the reconnection
path of `identifyOctapod` never resets the counter. -/
theorem c3_counterexample :
    (lobbyEvicted.identifyOctapod "a" "x" 1).2 = [] ∧
    (List.lookup "a" (lobbyEvicted.identifyOctapod "a" "x" 1).1.Octapods).map
        Octapod.Conn = some (some 1) ∧
    (List.lookup "a" (lobbyEvicted.identifyOctapod "a" "x" 1).1.Octapods).map
        Octapod.InactiveCount = some 2 ∧
    ¬ (List.lookup "a" (lobbyEvicted.identifyOctapod "a" "x" 1).1.Octapods).map
        Octapod.InactiveCount = some 0 := by
  decide

/-- C3 (amended): a probe's `inactiveCount` is 0 immediately after a
successful first registration; a successful reconnection attaches the new
stream but leaves `inactiveCount` unchanged; an update phase increments it
by exactly 1 when the probe is connected and leaves it unchanged otherwise;
the timeout phase and rejected handshakes never modify it. -/
theorem c3_inactive_count_dynamics (l : Lobby) (id password : String)
    (conn : Nat) :
    (List.lookup id l.Octapods = none →
      (List.lookup id (l.identifyOctapod id password conn).1.Octapods).map
        Octapod.InactiveCount = some 0) ∧
    (∀ oct, List.lookup id l.Octapods = some oct → oct.Conn = none →
        oct.VerifyPassword password = true →
      (List.lookup id (l.identifyOctapod id password conn).1.Octapods).map
          Octapod.InactiveCount = some oct.InactiveCount ∧
      (List.lookup id (l.identifyOctapod id password conn).1.Octapods).map
          Octapod.Conn = some (some conn)) ∧
    (∀ oct, List.lookup id l.Octapods = some oct →
      (List.lookup id l.Update.Octapods).map Octapod.InactiveCount =
        some (if oct.Conn.isSome then oct.InactiveCount + 1
              else oct.InactiveCount)) ∧
    (∀ oct, List.lookup id l.Octapods = some oct →
      (List.lookup id l.TimeoutUpdate.1.Octapods).map Octapod.InactiveCount =
        some oct.InactiveCount) ∧
    (∀ oct, List.lookup id l.Octapods = some oct →
        (oct.VerifyPassword password = false ∨ oct.Conn.isSome = true) →
      (l.identifyOctapod id password conn).1 = l) := by
  refine ⟨?_, ?_, ?_, ?_, ?_⟩
  · intro h
    simp only [Lobby.identifyOctapod, h]
    rw [lookup_append_self h]
    rfl
  · intro oct h hconn hv
    have hns : ¬ (oct.Conn.isSome = true) := by rw [hconn]; simp
    simp only [Lobby.identifyOctapod, h]
    rw [if_neg (by simp [hv]), if_neg hns]
    rw [lookup_updateEntry h]
    exact ⟨rfl, rfl⟩
  · intro oct h
    simp only [Lobby.Update]
    rw [lookup_map_value, h]
    cases hc : oct.Conn with
    | none => simp [updateOne, hc]
    | some c => simp [updateOne, hc]
  · intro oct h
    simp only [Lobby.TimeoutUpdate]
    rw [lookup_map_timeout, h]
    cases hc : oct.Conn with
    | none => simp [timeoutOne, hc]
    | some c =>
        by_cases hm : MaxInactive ≤ oct.InactiveCount
        · simp [timeoutOne, hc, hm, Octapod.Disconnect]
        · simp [timeoutOne, hc, hm]
  · intro oct h hrej
    by_cases hv : oct.VerifyPassword password = true
    · rcases hrej with hf | hs
      · rw [hv] at hf; exact absurd hf (by simp)
      · simp [Lobby.identifyOctapod, h, hv, hs]
    · have hv' : oct.VerifyPassword password = false := by
        cases hx : oct.VerifyPassword password
        · rfl
        · exact absurd hx hv
      simp [Lobby.identifyOctapod, h, hv']

/-- Witness for C3 (amended) at concrete inputs. -/
theorem c3_witness :
    (List.lookup "a" (lobbyEmpty.identifyOctapod "a" "x" 0).1.Octapods).map
        Octapod.InactiveCount = some 0 ∧
    (List.lookup "a" lobbyA.Update.Octapods).map Octapod.InactiveCount =
      some 1 := by
  have h1 := (c3_inactive_count_dynamics lobbyEmpty "a" "x" 0).1 (by decide)
  have h2 := (c3_inactive_count_dynamics lobbyA "a" "x" 0).2.2.1 podA (by decide)
  refine ⟨h1, ?_⟩
  rw [h2]
  decide

/-! ## C5 -/

/-- C5: in the update phase, a snapshotted probe with a live connection has
its `inactiveCount` incremented by exactly 1, the grid sensor is read at the
probe's current position and that reading is delivered on its channel; a
probe with no connection is left entirely unchanged. -/
theorem c5_update_phase (l : Lobby) (id : String) (oct : Octapod)
    (h : List.lookup id l.Octapods = some oct) :
    (oct.Conn ≠ none →
      List.lookup id l.Update.Octapods =
        some { oct with
                 InactiveCount := oct.InactiveCount + 1
                 Sensor := oct.Sensor ++ [some (l.maze.GetSensor oct.Position)] }) ∧
    (oct.Conn = none → List.lookup id l.Update.Octapods = some oct) := by
  constructor
  · intro hc
    simp only [Lobby.Update]
    rw [lookup_map_value, h]
    cases hx : oct.Conn with
    | none => exact absurd hx hc
    | some c => simp [updateOne, hx]
  · intro hc
    simp only [Lobby.Update]
    rw [lookup_map_value, h]
    simp [updateOne, hc]

/-- Witness for C5 at concrete inputs. -/
theorem c5_witness :
    List.lookup "a" lobbyA.Update.Octapods =
      some { podA with
               InactiveCount := podA.InactiveCount + 1
               Sensor := podA.Sensor ++ [some (lobbyA.maze.GetSensor podA.Position)] } :=
  (c5_update_phase lobbyA "a" podA (by decide)).1 (by decide)

/-! ## C6 -/

/-- C6: in the timeout phase, every snapshotted probe with a live connection
receives the nil timeout marker on its channel regardless of its
`inactiveCount`; it is then disconnected (connection cleared) exactly when
`inactiveCount` has reached `MaxInactive` — i.e. eviction happens at the
very next timeout phase — and stays connected when below the threshold;
probes with no connection are left unchanged. -/
theorem c6_timeout_phase (l : Lobby) (id : String) (oct : Octapod)
    (h : List.lookup id l.Octapods = some oct) :
    (∀ c, oct.Conn = some c →
      (MaxInactive ≤ oct.InactiveCount →
        List.lookup id l.TimeoutUpdate.1.Octapods =
          some { oct with Conn := none, Sensor := oct.Sensor ++ [none] }) ∧
      (oct.InactiveCount < MaxInactive →
        List.lookup id l.TimeoutUpdate.1.Octapods =
          some { oct with Sensor := oct.Sensor ++ [none] })) ∧
    (oct.Conn = none → List.lookup id l.TimeoutUpdate.1.Octapods = some oct) := by
  constructor
  · intro c hc
    constructor
    · intro hm
      simp only [Lobby.TimeoutUpdate]
      rw [lookup_map_timeout, h]
      simp [timeoutOne, hc, hm, Octapod.Disconnect]
    · intro hm
      simp only [Lobby.TimeoutUpdate]
      rw [lookup_map_timeout, h]
      simp [timeoutOne, hc, not_le.mpr hm]
  · intro hc
    simp only [Lobby.TimeoutUpdate]
    rw [lookup_map_timeout, h]
    simp [timeoutOne, hc]

/-- Witness for C6 at concrete inputs: the registered probe of `lobbyUpd2`
has `inactiveCount = 2 = MaxInactive` and is evicted by the very next
timeout phase. -/
theorem c6_witness :
    ∃ oct, List.lookup "a" lobbyUpd2.Octapods = some oct ∧
      List.lookup "a" lobbyUpd2.TimeoutUpdate.1.Octapods =
        some { oct with Conn := none, Sensor := oct.Sensor ++ [none] } := by
  refine ⟨{ podA with
              InactiveCount := 2
              Sensor := [some (mazeOne.GetSensor podA.Position),
                         some (mazeOne.GetSensor podA.Position)] }, by decide, ?_⟩
  exact ((c6_timeout_phase lobbyUpd2 "a" _ (by decide)).1 0 (by decide)).1 (by decide)

/-! ## C8 -/

theorem octfold_skip (id : String) :
    ∀ (pods : List Octapod) (acc : List (Point × Octapod)),
      (∀ o ∈ pods, includePod id o = false) →
      pods.foldl (fun m o => if includePod id o then (podPoint o, o) :: m else m)
        acc = acc := by
  intro pods
  induction pods with
  | nil => intro acc _; rfl
  | cons o rest ih =>
      intro acc hall
      rw [List.foldl_cons, if_neg (by simp [hall o (List.mem_cons_self o rest)])]
      exact ih acc fun x hx => hall x (List.mem_cons_of_mem o hx)

/-- C8: rendering with an empty filter over zero registered probes returns
the literal "No octapods in the lobby."; rendering with a non-empty filter
matching no probe's id returns the "no octapods" message that contains the
filter string. -/
theorem c8_display_empty_and_unmatched (m : Maze) (pods : List Octapod)
    (id : String) :
    displayMaze m [] "" = some "No octapods in the lobby." ∧
    (id ≠ "" → (∀ o ∈ pods, o.Id ≠ strToLower id) →
      displayMaze m pods id =
        some ("No octapods [" ++ id ++ "] in the lobby.") ∧
      ∃ a b, ("No octapods [" ++ id ++ "] in the lobby." : String) =
        a ++ id ++ b) := by
  refine ⟨rfl, fun hid hmatch => ⟨?_, "No octapods [", "] in the lobby.", rfl⟩⟩
  have hall : ∀ o ∈ pods, includePod id o = false := by
    intro o ho
    simp only [includePod, if_neg hid]
    exact decide_eq_false (hmatch o ho)
  have hpos : octapodPositions pods id = [] := octfold_skip id pods [] hall
  simp [displayMaze, hpos, hid]

/-- Witness for C8 at a concrete input (the registered probe `"a"` does not
match the filter `"B"`). -/
theorem c8_witness :
    displayMaze mazeOne [podA] "B" =
      some ("No octapods [" ++ "B" ++ "] in the lobby.") :=
  ((c8_display_empty_and_unmatched mazeOne [podA] "B").2 (by decide)
    (by decide)).1

/-! ## C9 -/

/-- The result of the full handshake for an authentication message whose id
is the empty string, against the empty lobby. -/
def emptyIdJoin : Lobby × List ConnEvent :=
  lobbyEmpty.HandleJoin 0
    (ReadOutcome.message MsgType.text (some { ID := "", Password := "pw" }))

/-- C9: the handshake accepts an authentication message with an empty id
(no error events) and registers the probe; the registered probe sits on the
open in-bounds cell (0,0), and rendering the resulting lobby indexes
`Id[0:1]` on the empty id — the panic, modelled as `none`. -/
theorem c9_empty_id_render_panics :
    emptyIdJoin.2 = [] ∧
    (List.lookup "" emptyIdJoin.1.Octapods).isSome = true ∧
    (List.lookup "" emptyIdJoin.1.Octapods).map Octapod.Position =
      some { x := 0, y := 0 } ∧
    mazeOne.cellAt 0 0 = false ∧
    emptyIdJoin.1.DisplayMaze "" = none := by
  decide

/-! ## C10 -/

theorem octfold_core (id : String) :
    ∀ (pods : List Octapod) (acc : List (Point × Octapod)),
      pods.foldl (fun m o => if includePod id o then (podPoint o, o) :: m else m)
        acc =
      ((pods.filter (includePod id)).map (fun o => (podPoint o, o))).reverse ++
        acc := by
  intro pods
  induction pods with
  | nil => intro acc; rfl
  | cons o rest ih =>
      intro acc
      rw [List.foldl_cons]
      by_cases hf : includePod id o = true
      · rw [if_pos hf, ih ((podPoint o, o) :: acc)]
        simp [hf, List.filter_cons, List.append_assoc]
      · rw [if_neg (by simp [hf]), ih acc]
        simp [hf, List.filter_cons]

theorem octapodPositions_eq (pods : List Octapod) (id : String) :
    octapodPositions pods id =
      ((pods.filter (includePod id)).map (fun o => (podPoint o, o))).reverse := by
  rw [octapodPositions, octfold_core, List.append_nil]

theorem lookupPos_map (q : Point) :
    ∀ l : List Octapod,
      lookupPos q (l.map (fun o => (podPoint o, o))) =
        l.find? (fun o => decide (podPoint o = q)) := by
  intro l
  induction l with
  | nil => rfl
  | cons o rest ih =>
      rw [List.map_cons, lookupPos]
      by_cases hq : podPoint o = q
      · rw [if_pos hq,
          List.find?_cons_of_pos (p := fun o => decide (podPoint o = q)) rest
            (by simp [hq])]
      · rw [if_neg hq,
          List.find?_cons_of_neg (p := fun o => decide (podPoint o = q)) rest
            (by simp [hq]), ih]

theorem find_eq_of_mem_unique {α : Type} (pred : α → Bool) :
    ∀ (l : List α) (x : α), x ∈ l → pred x = true →
      l.Pairwise (fun a b => ¬(pred a = true ∧ pred b = true)) →
      l.find? pred = some x := by
  intro l
  induction l with
  | nil => intro x hx _ _; exact absurd hx (List.not_mem_nil x)
  | cons a rest ih =>
      intro x hx hpx hpw
      rw [List.pairwise_cons] at hpw
      cases hpa : pred a with
      | true =>
          rw [List.find?_cons_of_pos _ hpa]
          rcases List.mem_cons.mp hx with rfl | hxr
          · rfl
          · exact absurd ⟨hpa, hpx⟩ (hpw.1 x hxr)
      | false =>
          rw [List.find?_cons_of_neg _ (by simp [hpa])]
          rcases List.mem_cons.mp hx with rfl | hxr
          · rw [hpa] at hpx; exact absurd hpx (by simp)
          · exact ih x hxr hpx hpw.2

theorem find_eq_of_perm_unique {α : Type} (pred : α → Bool)
    {l₁ l₂ : List α} (hp : l₁.Perm l₂)
    (hu : l₁.Pairwise (fun a b => ¬(pred a = true ∧ pred b = true))) :
    l₁.find? pred = l₂.find? pred := by
  have hu₂ : l₂.Pairwise (fun a b => ¬(pred a = true ∧ pred b = true)) :=
    ((hp.pairwise_iff (fun h => fun hx => h ⟨hx.2, hx.1⟩)).mp hu)
  by_cases hex : ∃ x ∈ l₁, pred x = true
  · obtain ⟨x, hx, hpx⟩ := hex
    rw [find_eq_of_mem_unique pred l₁ x hx hpx hu,
        find_eq_of_mem_unique pred l₂ x (hp.mem_iff.mp hx) hpx hu₂]
  · push_neg at hex
    rw [List.find?_eq_none.mpr fun x hx => by simp [hex x hx],
        List.find?_eq_none.mpr fun x hx => by simp [hex x (hp.mem_iff.mpr hx)]]

/-- C10: for a fixed maze and registry in which all probes occupy pairwise
distinct coordinates, `DisplayMaze` is deterministic — two registry
iteration orders that are permutations of one another render the same
string. -/
theorem c10_display_deterministic (m : Maze) (pods₁ pods₂ : List Octapod)
    (id : String) (hperm : pods₁.Perm pods₂)
    (hdist : pods₁.Pairwise (fun a b => podPoint a ≠ podPoint b)) :
    displayMaze m pods₁ id = displayMaze m pods₂ id := by
  have hfperm : (pods₁.filter (includePod id)).Perm
      (pods₂.filter (includePod id)) := hperm.filter _
  have hlen : (octapodPositions pods₁ id).length =
      (octapodPositions pods₂ id).length := by
    rw [octapodPositions_eq, octapodPositions_eq]
    simp [hfperm.length_eq]
  have hlook : (fun p => lookupPos p (octapodPositions pods₁ id)) =
      (fun p => lookupPos p (octapodPositions pods₂ id)) := by
    funext p
    rw [octapodPositions_eq, octapodPositions_eq,
        ← List.map_reverse, ← List.map_reverse, lookupPos_map, lookupPos_map]
    apply find_eq_of_perm_unique
    · exact ((pods₁.filter _).reverse_perm.trans hfperm).trans
        (pods₂.filter _).reverse_perm.symm
    · have h1 : (pods₁.filter (includePod id)).Pairwise
          (fun a b => podPoint a ≠ podPoint b) :=
        List.Pairwise.sublist (List.filter_sublist _) hdist
      have h2 : ((pods₁.filter (includePod id)).reverse).Pairwise
          (fun a b => podPoint a ≠ podPoint b) := by
        rw [List.pairwise_reverse]
        exact h1.imp fun h => h.symm
      exact h2.imp fun h hx =>
        h ((of_decide_eq_true hx.1).trans (of_decide_eq_true hx.2).symm)
  simp only [displayMaze]
  rw [hlen, hlook]

/-- A probe `"b"` with a position distinct from `podA`'s. -/
def podB : Octapod :=
  { Id := "b", secret := "y", Conn := some 2, Position := { x := 1, y := 0 },
    InactiveCount := 0, Sensor := [] }

/-- Witness for C10 at concrete inputs: the two iteration orders of the
registry holding `podA` and `podB` render identically. -/
theorem c10_witness :
    displayMaze mazeOne [podA, podB] "" = displayMaze mazeOne [podB, podA] "" :=
  c10_display_deterministic mazeOne [podA, podB] [podB, podA] ""
    (by decide) (by decide)
